import Mathlib

/-!
Verification of `scripts/create_splash_lottie.py` (ReceiptKeeper).

The script builds, purely from module-level constants, a nested
dictionary/list tree describing a Lottie animation document, and then
serializes it.  We embed that tree construction shallowly: Python
dictionaries become ordered association lists (Python dicts preserve
insertion order), lists become Lean lists, and all numeric literals are
modelled as rationals (every literal in the script is exactly
representable, and all arithmetic performed on them is exact).
-/

namespace SplashLottie

/-- JSON-like values as built by the Python script: numbers, strings,
booleans, arrays and ordered-field objects. -/
inductive JVal where
  | num (q : ℚ)
  | str (s : String)
  | bool (b : Bool)
  | arr (xs : List JVal)
  | obj (fields : List (String × JVal))

/-- Shorthand: a JSON array of numbers (a Python list of ints/floats). -/
def nums (qs : List ℚ) : JVal := .arr (qs.map .num)

/-- Animation settings, lines 15-19 of the script. -/
def CANVAS_WIDTH : ℚ := 200

/-- Canvas height constant. -/
def CANVAS_HEIGHT : ℚ := 200

/-- Frame rate constant. -/
def FPS : ℚ := 60

/-- Duration constant (the Python literal 2.0 is exactly 2). -/
def DURATION_SECONDS : ℚ := 2.0

/-- Python int() truncates toward zero. -/
def pyInt (q : ℚ) : ℤ := if 0 ≤ q then q.floor else q.ceil

/-- TOTAL_FRAMES = int(FPS * DURATION_SECONDS), line 19. -/
def TOTAL_FRAMES : ℤ := pyInt (FPS * DURATION_SECONDS)

/-- Colors, lines 22-25 ([r, g, b, a] normalized 0-1). -/
def WHITE : List ℚ := [1, 1, 1, 1]

/-- Gray line color constant. -/
def GRAY_LINE : List ℚ := [0.878, 0.878, 0.878, 1]

/-- Green color constant. -/
def GREEN : List ℚ := [0.133, 0.773, 0.369, 1]

/-- Background color constant (unused by the builders). -/
def BG_COLOR : List ℚ := [0.043, 0.239, 0.180, 1]

/-- create_bezier_easing (lines 27-32): the fields of the easing dict
`{"i": {"x": [x2], "y": [y2]}, "o": {"x": [x1], "y": [y1]}}`. -/
def create_bezier_easing (x1 y1 x2 y2 : ℚ) : List (String × JVal) :=
  [("i", .obj [("x", nums [x2]), ("y", nums [y2])]),
   ("o", .obj [("x", nums [x1]), ("y", nums [y1])])]

/-- EASE_OUT preset, line 35. -/
def EASE_OUT : List (String × JVal) := create_bezier_easing 0.0 0.0 0.2 1.0

/-- EASE_IN_OUT preset, line 36. -/
def EASE_IN_OUT : List (String × JVal) := create_bezier_easing 0.42 0.0 0.58 1.0

/-- EASE_OUT_BACK preset, line 37 (overshoot: y2 = 1.4 > 1). -/
def EASE_OUT_BACK : List (String × JVal) := create_bezier_easing 0.0 0.0 0.2 1.4

/-- animated_value (lines 39-41): `{"a": 1, "k": keyframes}`. -/
def animated_value (keyframes : List JVal) : JVal :=
  .obj [("a", .num 1), ("k", .arr keyframes)]

/-- static_value (lines 43-45): `{"a": 0, "k": value}`. -/
def static_value (value : JVal) : JVal :=
  .obj [("a", .num 0), ("k", value)]

/-- The `value` argument of `keyframe`: Python passes either a scalar
number or a list of numbers. -/
inductive KVal where
  | scalar (q : ℚ)
  | vec (qs : List ℚ)

/-- Line 49 of the script: `value if isinstance(value, list) else [value]`. -/
def KVal.toJson : KVal → JVal
  | .scalar q => nums [q]
  | .vec qs => nums qs

/-- Python dict.update: existing keys are overwritten in place, new keys
are appended in the update's order. -/
def dictUpdate (base upd : List (String × JVal)) : List (String × JVal) :=
  (base.map (fun kv =>
    match upd.find? (fun u => u.fst == kv.fst) with
    | some u => (kv.fst, u.snd)
    | none => kv)) ++
  upd.filter (fun u => !(base.any (fun kv => kv.fst == u.fst)))

/-- keyframe (lines 47-54): `{"t": time, "s": normalized value}`, merged
with the easing fields when given, and `"h": 1` appended when hold. -/
def keyframe (time : ℚ) (value : KVal) (easing : Option (List (String × JVal)))
    (hold : Bool) : JVal :=
  let kf0 := [("t", JVal.num time), ("s", value.toJson)]
  let kf1 := match easing with
    | some e => dictUpdate kf0 e
    | none => kf0
  let kf2 := if hold then kf1 ++ [("h", JVal.num 1)] else kf1
  .obj kf2

/-- create_rect_shape (lines 56-63): center position + size + radius. -/
def create_rect_shape (x y width height roundness : ℚ) : JVal :=
  .obj [("ty", .str "rc"),
        ("p", static_value (nums [x + width / 2, y + height / 2])),
        ("s", static_value (nums [width, height])),
        ("r", static_value (.num roundness))]

/-- create_fill (lines 65-71). -/
def create_fill (color : List ℚ) : JVal :=
  .obj [("ty", .str "fl"),
        ("c", static_value (nums color)),
        ("o", static_value (.num 100))]

/-- create_stroke (lines 73-82): round cap and join (lc = lj = 2). -/
def create_stroke (color : List ℚ) (width : ℚ) : JVal :=
  .obj [("ty", .str "st"),
        ("c", static_value (nums color)),
        ("o", static_value (.num 100)),
        ("w", static_value (.num width)),
        ("lc", .num 2),
        ("lj", .num 2)]

/-- create_ellipse (lines 84-90). -/
def create_ellipse (cx cy rx ry : ℚ) : JVal :=
  .obj [("ty", .str "el"),
        ("p", static_value (nums [cx, cy])),
        ("s", static_value (nums [rx * 2, ry * 2]))]

/-- create_path (lines 92-97). -/
def create_path (path_data : JVal) : JVal :=
  .obj [("ty", .str "sh"),
        ("ks", static_value path_data)]

/-- create_trim (lines 99-115).  Both call sites pass a two-element list
`[start_frame, start_frame]`, modelled here as a pair. -/
def create_trim (start_frames : ℚ × ℚ) (end_frame : ℚ) : JVal :=
  .obj [("ty", .str "tm"),
        ("s", animated_value [
          keyframe start_frames.1 (.scalar 0) (some EASE_OUT) false,
          keyframe start_frames.2 (.scalar 0) (some EASE_OUT) false,
          keyframe end_frame (.scalar 0) none false]),
        ("e", animated_value [
          keyframe start_frames.1 (.scalar 0) (some EASE_OUT) false,
          keyframe start_frames.2 (.scalar 0) (some EASE_OUT) false,
          keyframe end_frame (.scalar 100) none false]),
        ("o", static_value (.num 0)),
        ("m", .num 1)]

/-- create_transform (lines 117-126). -/
def create_transform (anchor position scale : List ℚ) (rotation opacity : ℚ) : JVal :=
  .obj [("ty", .str "tr"),
        ("a", static_value (nums anchor)),
        ("p", static_value (nums position)),
        ("s", static_value (nums scale)),
        ("r", static_value (.num rotation)),
        ("o", static_value (.num opacity))]

/-- Python call `create_transform()` with every default argument. -/
def create_transform_defaults : JVal :=
  create_transform [0, 0] [0, 0] [100, 100] 0 100

/-- Python truthiness of a list-or-None argument: None and the empty list
are falsy. -/
def truthy : Option (List JVal) → Bool
  | none => false
  | some l => !l.isEmpty

/-- create_animated_transform (lines 128-155): each sub-property is the
animated wrapping of the given keyframes when the argument is truthy,
otherwise its static default. -/
def create_animated_transform (anchor : List ℚ)
    (position_kf scale_kf rotation_kf opacity_kf : Option (List JVal)) : JVal :=
  .obj [("ty", .str "tr"),
        ("a", static_value (nums anchor)),
        ("p", if truthy position_kf then animated_value (position_kf.getD [])
              else static_value (nums [0, 0])),
        ("s", if truthy scale_kf then animated_value (scale_kf.getD [])
              else static_value (nums [100, 100])),
        ("r", if truthy rotation_kf then animated_value (rotation_kf.getD [])
              else static_value (.num 0)),
        ("o", if truthy opacity_kf then animated_value (opacity_kf.getD [])
              else static_value (.num 100))]

/-- create_receipt_layer (lines 157-193). -/
def create_receipt_layer : JVal :=
  let start_frame : ℚ := 0
  let end_frame : ℚ := 25
  .obj [("ty", .num 4),
        ("nm", .str "Receipt Paper"),
        ("sr", .num 1),
        ("ks", .obj [
          ("a", static_value (nums [100, 100])),
          ("p", static_value (nums [100, 100])),
          ("s", animated_value [
            keyframe start_frame (.vec [0, 0]) (some EASE_OUT_BACK) false,
            keyframe end_frame (.vec [100, 100]) none false]),
          ("r", static_value (.num 0)),
          ("o", animated_value [
            keyframe start_frame (.vec [0]) (some EASE_OUT) false,
            keyframe (end_frame - 10) (.vec [100]) none false])]),
        ("shapes", .arr [
          .obj [("ty", .str "gr"),
                ("it", .arr [
                  create_rect_shape 40 20 120 160 8,
                  create_fill WHITE,
                  create_transform_defaults]),
                ("nm", .str "Paper")]]),
        ("ip", .num 0),
        ("op", .num (TOTAL_FRAMES : ℚ)),
        ("st", .num 0)]

/-- create_line_layer (lines 195-234). -/
def create_line_layer (y_pos width delay_frame : ℚ) (name : String) : JVal :=
  let start_frame := delay_frame
  let end_frame := delay_frame + 15
  let line_path : JVal := .obj [
    ("c", .bool false),
    ("v", .arr [nums [55, y_pos], nums [55 + width - 55, y_pos]]),
    ("i", .arr [nums [0, 0], nums [0, 0]]),
    ("o", .arr [nums [0, 0], nums [0, 0]])]
  .obj [("ty", .num 4),
        ("nm", .str name),
        ("sr", .num 1),
        ("ks", .obj [
          ("a", static_value (nums [0, 0])),
          ("p", static_value (nums [0, 0])),
          ("s", static_value (nums [100, 100])),
          ("r", static_value (.num 0)),
          ("o", static_value (.num 100))]),
        ("shapes", .arr [
          .obj [("ty", .str "gr"),
                ("it", .arr [
                  create_path line_path,
                  create_stroke GRAY_LINE 3,
                  create_trim (start_frame, start_frame) end_frame,
                  create_transform_defaults]),
                ("nm", .str name)]]),
        ("ip", .num 0),
        ("op", .num (TOTAL_FRAMES : ℚ)),
        ("st", .num 0)]

/-- create_circle_layer (lines 236-269). -/
def create_circle_layer : JVal :=
  let start_frame : ℚ := 45
  let end_frame : ℚ := 65
  .obj [("ty", .num 4),
        ("nm", .str "Green Circle"),
        ("sr", .num 1),
        ("ks", .obj [
          ("a", static_value (nums [140, 140])),
          ("p", static_value (nums [140, 140])),
          ("s", animated_value [
            keyframe start_frame (.vec [0, 0]) (some EASE_OUT_BACK) false,
            keyframe end_frame (.vec [100, 100]) none false]),
          ("r", static_value (.num 0)),
          ("o", static_value (.num 100))]),
        ("shapes", .arr [
          .obj [("ty", .str "gr"),
                ("it", .arr [
                  create_ellipse 140 140 35 35,
                  create_fill GREEN,
                  create_transform_defaults]),
                ("nm", .str "Circle")]]),
        ("ip", .num 0),
        ("op", .num (TOTAL_FRAMES : ℚ)),
        ("st", .num 0)]

/-- create_checkmark_layer (lines 271-310). -/
def create_checkmark_layer : JVal :=
  let start_frame : ℚ := 60
  let end_frame : ℚ := 85
  let check_path : JVal := .obj [
    ("c", .bool false),
    ("v", .arr [nums [125, 140], nums [135, 150], nums [158, 125]]),
    ("i", .arr [nums [0, 0], nums [0, 0], nums [0, 0]]),
    ("o", .arr [nums [0, 0], nums [0, 0], nums [0, 0]])]
  .obj [("ty", .num 4),
        ("nm", .str "Checkmark"),
        ("sr", .num 1),
        ("ks", .obj [
          ("a", static_value (nums [0, 0])),
          ("p", static_value (nums [0, 0])),
          ("s", static_value (nums [100, 100])),
          ("r", static_value (.num 0)),
          ("o", static_value (.num 100))]),
        ("shapes", .arr [
          .obj [("ty", .str "gr"),
                ("it", .arr [
                  create_path check_path,
                  create_stroke WHITE 6,
                  create_trim (start_frame, start_frame) end_frame,
                  create_transform_defaults]),
                ("nm", .str "Check")]]),
        ("ip", .num 0),
        ("op", .num (TOTAL_FRAMES : ℚ)),
        ("st", .num 0)]

/-- create_lottie_animation (lines 312-335): the complete document. -/
def create_lottie_animation : JVal :=
  .obj [("v", .str "5.7.4"),
        ("fr", .num FPS),
        ("ip", .num 0),
        ("op", .num (TOTAL_FRAMES : ℚ)),
        ("w", .num CANVAS_WIDTH),
        ("h", .num CANVAS_HEIGHT),
        ("nm", .str "ReceiptKeeper Splash"),
        ("ddd", .num 0),
        ("assets", .arr []),
        ("layers", .arr [
          create_checkmark_layer,
          create_circle_layer,
          create_line_layer 110 120 35 "Line 4",
          create_line_layer 90 140 30 "Line 3",
          create_line_layer 70 130 25 "Line 2",
          create_line_layer 50 145 20 "Line 1",
          create_receipt_layer])]

/-- The Python builder is a zero-argument function; model the call. -/
def create_lottie_animation_call : Unit → JVal :=
  fun _ => create_lottie_animation

/-- Lookup in an ordered field list (first match, as in a Python dict). -/
def lookupField : List (String × JVal) → String → Option JVal
  | [], _ => none
  | (k, v) :: rest, key => if k == key then some v else lookupField rest key

/-- Field access on a JSON object. -/
def getField : JVal → String → Option JVal
  | .obj fs, key => lookupField fs key
  | _, _ => none

/-- Index access on a JSON array. -/
def getIdx : JVal → Nat → Option JVal
  | .arr xs, i => xs.get? i
  | _, _ => none

/-- Chained field access. -/
def getAt (j : JVal) (path : List String) : Option JVal :=
  path.foldl (fun acc k => acc.bind (fun v => getField v k)) (some j)

/-- The document's layer list. -/
def getLayers (doc : JVal) : List JVal :=
  match getField doc "layers" with
  | some (.arr ls) => ls
  | _ => []

/-- Check whether a value is the number q. -/
def isNum (q : ℚ) : JVal → Bool
  | .num r => r == q
  | _ => false

mutual

/-- Keyframe lists of every property record in the tree whose animated
flag "a" is set to 1. -/
def animatedKfLists : JVal → List (List JVal)
  | .num _ => []
  | .str _ => []
  | .bool _ => []
  | .arr xs => animatedKfListsArr xs
  | .obj fs =>
    (match lookupField fs "a", lookupField fs "k" with
     | some a, some (.arr ks) => if isNum 1 a then [ks] else []
     | _, _ => []) ++ animatedKfListsFields fs

/-- Traversal over an array's elements. -/
def animatedKfListsArr : List JVal → List (List JVal)
  | [] => []
  | x :: t => animatedKfLists x ++ animatedKfListsArr t

/-- Traversal over an object's field values. -/
def animatedKfListsFields : List (String × JVal) → List (List JVal)
  | [] => []
  | (_, v) :: t => animatedKfLists v ++ animatedKfListsFields t

end

/-- The time field "t" of a keyframe record. -/
def kfTime : JVal → Option ℚ
  | .obj fs =>
    match lookupField fs "t" with
    | some (.num q) => some q
    | _ => none
  | _ => none

/-- The value field "s" of a keyframe record. -/
def kfValue (kf : JVal) : Option JVal := getField kf "s"

/-- Times of a keyframe list, in order. -/
def kfTimes (ks : List JVal) : List ℚ := ks.filterMap kfTime

/-- Boolean check that a list of rationals is non-decreasing. -/
def nondecreasing : List ℚ → Bool
  | [] => true
  | [_] => true
  | a :: b :: t => decide (a ≤ b) && nondecreasing (b :: t)

/-- Boolean check that the last element, if any, is at most m. -/
def lastLe (m : ℚ) (ts : List ℚ) : Bool :=
  match ts.getLast? with
  | none => true
  | some t => decide (t ≤ m)

/-- Well-formedness of one animated property's keyframe list against a
frame bound: every keyframe carries a time, the times are non-decreasing,
and the final time is at most m. -/
def kfListOk (m : ℚ) (ks : List JVal) : Bool :=
  ks.all (fun kf => (kfTime kf).isSome) &&
  nondecreasing (kfTimes ks) &&
  lastLe m (kfTimes ks)

/-- Render a rational the way the script's exact literals print. -/
def numToString (q : ℚ) : String :=
  if q.den == 1 then toString q.num
  else toString q.num ++ "/" ++ toString q.den

mutual

/-- A stable serializer: fields are emitted in stored (insertion) order,
so equal trees serialize to equal strings. -/
def serializeV : JVal → String
  | .num q => numToString q
  | .str s => "\"" ++ s ++ "\""
  | .bool b => if b then "true" else "false"
  | .arr xs => "[" ++ serializeArr xs ++ "]"
  | .obj fs => "\x7b" ++ serializeFields fs ++ "\x7d"

/-- Serialize array elements, comma-separated. -/
def serializeArr : List JVal → String
  | [] => ""
  | [x] => serializeV x
  | x :: y :: t => serializeV x ++ "," ++ serializeArr (y :: t)

/-- Serialize object fields, comma-separated. -/
def serializeFields : List (String × JVal) → String
  | [] => ""
  | [(k, v)] => "\"" ++ k ++ "\":" ++ serializeV v
  | (k, v) :: f :: t => "\"" ++ k ++ "\":" ++ serializeV v ++ "," ++ serializeFields (f :: t)

end

/-- The trim item of a layer built like the line/checkmark layers:
shapes[0].it[2]. -/
def lineTrim (l : JVal) : Option JVal :=
  ((getField l "shapes").bind (fun s => getIdx s 0)).bind
    (fun g => (getField g "it").bind (fun it => getIdx it 2))

/-- The keyframe list of the trim's property `prop` ("s" or "e"). -/
def trimPropKfs (l : JVal) (prop : String) : List JVal :=
  match (lineTrim l).bind (fun t => getAt t [prop, "k"]) with
  | some (.arr ks) => ks
  | _ => []

/-- The path data of a layer built like the line layers:
shapes[0].it[0].ks.k. -/
def linePathData (l : JVal) : Option JVal :=
  (((getField l "shapes").bind (fun s => getIdx s 0)).bind
    (fun g => (getField g "it").bind (fun it => getIdx it 0))).bind
    (fun sh => getAt sh ["ks", "k"])

/-- Rat.floor is the floor of the FloorRing instance on ℚ, so it can be
evaluated by norm_num. -/
lemma rat_floor_onetwenty : Rat.floor (120 : ℚ) = 120 := by
  have h : Rat.floor (120 : ℚ) = ⌊(120 : ℚ)⌋ := rfl
  rw [h]; norm_num

/-- TOTAL_FRAMES = int(60 * 2.0) = 120. -/
lemma total_frames_eq : TOTAL_FRAMES = 120 := by
  norm_num [TOTAL_FRAMES, pyInt, FPS, DURATION_SECONDS, rat_floor_onetwenty]

/-- TOTAL_FRAMES as a rational is 120. -/
lemma total_frames_q : (TOTAL_FRAMES : ℚ) = 120 := by
  rw [total_frames_eq]; norm_num

/-- Claim C1: building the document with the default constants produces a
layers list of exactly 7 layers whose names, in list order, are
Checkmark, Green Circle, Line 4, Line 3, Line 2, Line 1, Receipt Paper. -/
theorem claim_C1 :
    (getLayers create_lottie_animation).length = 7 ∧
    (getLayers create_lottie_animation).map (fun l => getField l "nm") =
      [some (.str "Checkmark"), some (.str "Green Circle"), some (.str "Line 4"),
       some (.str "Line 3"), some (.str "Line 2"), some (.str "Line 1"),
       some (.str "Receipt Paper")] :=
  ⟨rfl, rfl⟩

/-- Claim C2: every animated property anywhere in the generated document
(there are 13 of them) has keyframes that all carry a time, whose times are
non-decreasing, and whose final time is at most the document's total frame
count, which is 120. -/
theorem claim_C2 :
    (animatedKfLists create_lottie_animation).length = 13 ∧
    (animatedKfLists create_lottie_animation).all (kfListOk (TOTAL_FRAMES : ℚ)) = true ∧
    (TOTAL_FRAMES : ℚ) = 120 := by
  refine ⟨rfl, ?_, total_frames_q⟩
  norm_num [create_lottie_animation, create_checkmark_layer, create_circle_layer,
    create_line_layer, create_receipt_layer, create_trim, create_rect_shape, create_fill,
    create_stroke, create_ellipse, create_path, create_transform_defaults, create_transform,
    keyframe, dictUpdate, KVal.toJson, nums, animated_value, static_value,
    EASE_OUT, EASE_OUT_BACK, create_bezier_easing, WHITE, GRAY_LINE, GREEN,
    animatedKfLists, animatedKfListsArr, animatedKfListsFields, lookupField, isNum,
    kfListOk, kfTimes, kfTime, nondecreasing, lastLe, List.all, List.filterMap,
    TOTAL_FRAMES, pyInt, FPS, DURATION_SECONDS, rat_floor_onetwenty]

/-- Claim C3: every layer in the generated document has in-frame ip = 0 and
out-frame op = total frame count, i.e. no layer activates or deactivates
mid-animation. -/
theorem claim_C3 :
    (getLayers create_lottie_animation).map (fun l => (getField l "ip", getField l "op")) =
      List.replicate 7 (some (.num 0), some (.num (TOTAL_FRAMES : ℚ))) :=
  rfl

/-- Claim C4: the receipt layer's transform has animated scale with exactly
the keyframes t = 0 with value [0, 0] (carrying the overshoot easing, whose
incoming control point is (0.2, 1.4)) and t = 25 with value [100, 100], and
animated opacity with exactly the keyframes t = 0 with value [0] (carrying
the ease-out easing, incoming control point (0.2, 1)) and t = 15 with
value [100]. -/
theorem claim_C4 :
    getAt create_receipt_layer ["ks", "s", "a"] = some (.num 1) ∧
    getAt create_receipt_layer ["ks", "s", "k"] = some (.arr [
      .obj [("t", .num 0), ("s", .arr [.num 0, .num 0]),
            ("i", .obj [("x", .arr [.num 0.2]), ("y", .arr [.num 1.4])]),
            ("o", .obj [("x", .arr [.num 0]), ("y", .arr [.num 0])])],
      .obj [("t", .num 25), ("s", .arr [.num 100, .num 100])]]) ∧
    getAt create_receipt_layer ["ks", "o", "a"] = some (.num 1) ∧
    getAt create_receipt_layer ["ks", "o", "k"] = some (.arr [
      .obj [("t", .num 0), ("s", .arr [.num 0]),
            ("i", .obj [("x", .arr [.num 0.2]), ("y", .arr [.num 1])]),
            ("o", .obj [("x", .arr [.num 0]), ("y", .arr [.num 0])])],
      .obj [("t", .num 15), ("s", .arr [.num 100])]]) := by
  have h1 : (25 : ℚ) - 10 = 15 := by norm_num
  have h2 : (1.0 : ℚ) = 1 := by norm_num
  have h3 : (0.0 : ℚ) = 0 := by norm_num
  refine ⟨rfl, ?_, rfl, ?_⟩
  · have base : getAt create_receipt_layer ["ks", "s", "k"] = some (.arr [
        .obj [("t", .num 0), ("s", .arr [.num 0, .num 0]),
              ("i", .obj [("x", .arr [.num 0.2]), ("y", .arr [.num 1.4])]),
              ("o", .obj [("x", .arr [.num 0.0]), ("y", .arr [.num 0.0])])],
        .obj [("t", .num 25), ("s", .arr [.num 100, .num 100])]]) := rfl
    rw [base, h3]
  · have base : getAt create_receipt_layer ["ks", "o", "k"] = some (.arr [
        .obj [("t", .num 0), ("s", .arr [.num 0]),
              ("i", .obj [("x", .arr [.num 0.2]), ("y", .arr [.num 1.0])]),
              ("o", .obj [("x", .arr [.num 0.0]), ("y", .arr [.num 0.0])])],
        .obj [("t", .num (25 - 10)), ("s", .arr [.num 100])]]) := rfl
    rw [base, h1, h2, h3]

/-- Claim C5: for every line layer built with delay frame d, the Trim's
end property "e" has final keyframe of value [100] at time d + 15, and the
Trim's start property "s" has value [0] at every one of its keyframes,
whose times are d, d and d + 15. -/
theorem claim_C5 (y w d : ℚ) (n : String) :
    (trimPropKfs (create_line_layer y w d n) "e").getLast? =
      some (.obj [("t", .num (d + 15)), ("s", .arr [.num 100])]) ∧
    (trimPropKfs (create_line_layer y w d n) "s").map kfValue =
      [some (.arr [.num 0]), some (.arr [.num 0]), some (.arr [.num 0])] ∧
    (trimPropKfs (create_line_layer y w d n) "s").map kfTime =
      [some d, some d, some (d + 15)] :=
  ⟨rfl, rfl, rfl⟩

/-- Claim C5 witness: instantiation at the fourth line layer call site,
create_line_layer 50 145 20 "Line 1". -/
theorem claim_C5_witness :
    (trimPropKfs (create_line_layer 50 145 20 "Line 1") "e").getLast? =
      some (.obj [("t", .num (20 + 15)), ("s", .arr [.num 100])]) ∧
    (trimPropKfs (create_line_layer 50 145 20 "Line 1") "s").map kfValue =
      [some (.arr [.num 0]), some (.arr [.num 0]), some (.arr [.num 0])] ∧
    (trimPropKfs (create_line_layer 50 145 20 "Line 1") "s").map kfTime =
      [some 20, some 20, some (20 + 15)] :=
  claim_C5 50 145 20 "Line 1"

/-- Claim C6: the total frame count equals round(frame_rate × duration);
with frame rate 60 and duration 2.0 it is 120, and 120 is the document's
out-frame and every layer's out-frame. -/
theorem claim_C6 :
    TOTAL_FRAMES = round (FPS * DURATION_SECONDS) ∧
    TOTAL_FRAMES = 120 ∧
    getField create_lottie_animation "op" = some (.num 120) ∧
    (getLayers create_lottie_animation).map (fun l => getField l "op") =
      List.replicate 7 (some (.num 120)) := by
  refine ⟨?_, total_frames_eq, ?_, ?_⟩
  · rw [total_frames_eq, round_eq]
    norm_num [FPS, DURATION_SECONDS]
  · have base : getField create_lottie_animation "op" =
        some (.num (TOTAL_FRAMES : ℚ)) := rfl
    rw [base, total_frames_q]
  · have base : (getLayers create_lottie_animation).map (fun l => getField l "op") =
        List.replicate 7 (some (.num (TOTAL_FRAMES : ℚ))) := rfl
    rw [base, total_frames_q]

/-- Claim C7: for all inputs, the rectangle constructor stores the position
as the center point [x + width/2, y + height/2] and the size as
[width, height]: the conversion from top-left to center happens inside the
constructor. -/
theorem claim_C7 (x y w h r : ℚ) :
    getField (create_rect_shape x y w h r) "p" =
      some (.obj [("a", .num 0), ("k", .arr [.num (x + w / 2), .num (y + h / 2)])]) ∧
    getField (create_rect_shape x y w h r) "s" =
      some (.obj [("a", .num 0), ("k", .arr [.num w, .num h])]) :=
  ⟨rfl, rfl⟩

/-- Claim C7 witness: instantiation at the receipt paper call site,
create_rect_shape 40 20 120 160 8. -/
theorem claim_C7_witness :
    getField (create_rect_shape 40 20 120 160 8) "p" =
      some (.obj [("a", .num 0), ("k", .arr [.num (40 + 120 / 2), .num (20 + 160 / 2)])]) ∧
    getField (create_rect_shape 40 20 120 160 8) "s" =
      some (.obj [("a", .num 0), ("k", .arr [.num 120, .num 160])]) :=
  claim_C7 40 20 120 160 8

/-- Claim C8: document construction is deterministic. The builder takes no
inputs; any two calls return the same document tree, and a stable-key-order
serializer therefore produces identical output text for the two calls. -/
theorem claim_C8 (u v : Unit) :
    create_lottie_animation_call u = create_lottie_animation_call v ∧
    serializeV (create_lottie_animation_call u) = serializeV (create_lottie_animation_call v) :=
  ⟨rfl, rfl⟩

/-- Claim C8 witness: two concrete calls of the builder. -/
theorem claim_C8_witness :
    create_lottie_animation_call () = create_lottie_animation_call () ∧
    serializeV (create_lottie_animation_call ()) = serializeV (create_lottie_animation_call ()) :=
  claim_C8 () ()

/-- Claim C9 counterexample: the claim says every supplied keyframe
sequence is wrapped as an animated property instead of the default, but a
supplied empty sequence is falsy in Python, so create_animated_transform
given scale_kf = [] stores the static default [100, 100], not the animated
wrapping of []. -/
theorem claim_C9_counterexample :
    getField (create_animated_transform [0, 0] none (some []) none none) "s" =
      some (static_value (nums [100, 100])) ∧
    static_value (nums [100, 100]) ≠ animated_value [] :=
  ⟨rfl, by simp [static_value, animated_value, nums]⟩

/-- Claim C9 (amended): the animated-transform constructor defaults every
omitted or empty sub-property to its static default — position [0, 0],
scale [100, 100], rotation 0, opacity 100 — and wraps each supplied
non-empty keyframe sequence as an animated property instead of the
default. -/
theorem claim_C9 (anchor : List ℚ)
    (position_kf scale_kf rotation_kf opacity_kf : Option (List JVal)) :
    (truthy position_kf = false →
      getField (create_animated_transform anchor position_kf scale_kf rotation_kf opacity_kf) "p" =
        some (static_value (nums [0, 0]))) ∧
    (∀ kfs, position_kf = some kfs → kfs ≠ [] →
      getField (create_animated_transform anchor position_kf scale_kf rotation_kf opacity_kf) "p" =
        some (animated_value kfs)) ∧
    (truthy scale_kf = false →
      getField (create_animated_transform anchor position_kf scale_kf rotation_kf opacity_kf) "s" =
        some (static_value (nums [100, 100]))) ∧
    (∀ kfs, scale_kf = some kfs → kfs ≠ [] →
      getField (create_animated_transform anchor position_kf scale_kf rotation_kf opacity_kf) "s" =
        some (animated_value kfs)) ∧
    (truthy rotation_kf = false →
      getField (create_animated_transform anchor position_kf scale_kf rotation_kf opacity_kf) "r" =
        some (static_value (.num 0))) ∧
    (∀ kfs, rotation_kf = some kfs → kfs ≠ [] →
      getField (create_animated_transform anchor position_kf scale_kf rotation_kf opacity_kf) "r" =
        some (animated_value kfs)) ∧
    (truthy opacity_kf = false →
      getField (create_animated_transform anchor position_kf scale_kf rotation_kf opacity_kf) "o" =
        some (static_value (.num 100))) ∧
    (∀ kfs, opacity_kf = some kfs → kfs ≠ [] →
      getField (create_animated_transform anchor position_kf scale_kf rotation_kf opacity_kf) "o" =
        some (animated_value kfs)) := by
  have htrue : ∀ kfs : List JVal, kfs ≠ [] → truthy (some kfs) = true := by
    intro kfs hne
    cases kfs with
    | nil => exact absurd rfl hne
    | cons a t => rfl
  refine ⟨?_, ?_, ?_, ?_, ?_, ?_, ?_, ?_⟩
  · intro hp
    simp only [create_animated_transform]
    rw [hp]
    rfl
  · intro kfs hk hne
    subst hk
    simp only [create_animated_transform]
    rw [htrue kfs hne]
    rfl
  · intro hs
    simp only [create_animated_transform]
    rw [hs]
    rfl
  · intro kfs hk hne
    subst hk
    simp only [create_animated_transform]
    rw [htrue kfs hne]
    rfl
  · intro hr
    simp only [create_animated_transform]
    rw [hr]
    rfl
  · intro kfs hk hne
    subst hk
    simp only [create_animated_transform]
    rw [htrue kfs hne]
    rfl
  · intro ho
    simp only [create_animated_transform]
    rw [ho]
    rfl
  · intro kfs hk hne
    subst hk
    simp only [create_animated_transform]
    rw [htrue kfs hne]
    rfl

/-- Claim C9 witness: a call with an omitted position and one supplied
non-empty scale keyframe sequence gets the static position default and the
animated scale wrapping. -/
theorem claim_C9_witness :
    getField (create_animated_transform [0, 0] none
        (some [keyframe 0 (.scalar 0) none false]) none none) "p" =
      some (static_value (nums [0, 0])) ∧
    getField (create_animated_transform [0, 0] none
        (some [keyframe 0 (.scalar 0) none false]) none none) "s" =
      some (animated_value [keyframe 0 (.scalar 0) none false]) :=
  ⟨(claim_C9 [0, 0] none (some [keyframe 0 (.scalar 0) none false]) none none).1 rfl,
   (claim_C9 [0, 0] none (some [keyframe 0 (.scalar 0) none false]) none none).2.2.2.1
     [keyframe 0 (.scalar 0) none false] rfl (by simp)⟩

/-- Claim C10: in every line layer, the path is an open two-vertex polyline
from [55, y_pos] to [width, y_pos] with zero tangents: the width parameter
is the absolute ending x-coordinate (the source computes 55 + width - 55),
not a length added to the start x. -/
theorem claim_C10 (y w d : ℚ) (n : String) :
    linePathData (create_line_layer y w d n) = some (.obj [
      ("c", .bool false),
      ("v", .arr [.arr [.num 55, .num y], .arr [.num w, .num y]]),
      ("i", .arr [.arr [.num 0, .num 0], .arr [.num 0, .num 0]]),
      ("o", .arr [.arr [.num 0, .num 0], .arr [.num 0, .num 0]])]) := by
  have h : (55 : ℚ) + w - 55 = w := by ring
  have base : linePathData (create_line_layer y w d n) = some (.obj [
      ("c", .bool false),
      ("v", .arr [.arr [.num 55, .num y], .arr [.num (55 + w - 55), .num y]]),
      ("i", .arr [.arr [.num 0, .num 0], .arr [.num 0, .num 0]]),
      ("o", .arr [.arr [.num 0, .num 0], .arr [.num 0, .num 0]])]) := rfl
  rw [base, h]

/-- Claim C10 witness: instantiation at the first line layer call site,
create_line_layer 110 120 35 "Line 4". -/
theorem claim_C10_witness :
    linePathData (create_line_layer 110 120 35 "Line 4") = some (.obj [
      ("c", .bool false),
      ("v", .arr [.arr [.num 55, .num 110], .arr [.num 120, .num 110]]),
      ("i", .arr [.arr [.num 0, .num 0], .arr [.num 0, .num 0]]),
      ("o", .arr [.arr [.num 0, .num 0], .arr [.num 0, .num 0]])]) :=
  claim_C10 110 120 35 "Line 4"

end SplashLottie
